import Mathlib

/-!
Shallow embedding of the screenshot-to-solution processing pipeline of the
`interview-coder` repository, together with theorems settling the frozen
claims about it.

The embedded code is `src/electron/ProcessingHelper.ts` (the class
`ProcessingHelper`: `processScreenshots`, `processScreenshotsHelper`,
`generateSolutionsHelper`, `processExtraScreenshotsHelper`,
`cancelOngoingRequests`) and the `trigger-reset` IPC handler of
`ipcHandlers.ts` (`src/unnamed/part_000`).

External effects are modelled explicitly:
* mutable pipeline state (`PState`): the main window's availability, the
  current view, the stored problem info, the `hasDebugged` flag, the two
  abort-controller slots and the two screenshot queues;
* the outcomes of the external calls (disk loads and the three Analysis
  Client operations) are an oracle (`Env`);
* `webContents.send` calls are collected, in emission order, into a list of
  `Event`s; Analysis Client invocations are collected into a list of
  `ApiCall`s.
-/

namespace InterviewCoder

/-- The `View` value: exactly two states, `queue` and `solutions`. -/
inductive View
  | queue
  | solutions
deriving DecidableEq, Repr

/-- Opaque problem-extraction payload (the structured info returned by
`extractProblemInfo`). Modelled as a wrapped string. -/
structure ProblemInfo where
  data : String
deriving DecidableEq, Repr

/-- Opaque solutions payload returned by `generateSolutionResponses`. -/
structure Solutions where
  data : String
deriving DecidableEq, Repr

/-- Opaque debug-solutions payload returned by `debugSolutionResponses`. -/
structure DebugSolutions where
  data : String
deriving DecidableEq, Repr

/-- Channel names of the events sent over `webContents.send` by the
pipeline (the `PROCESSING_EVENTS` constants, plus the two reset channels
used by the `trigger-reset` handler). -/
inductive EvName
  | INITIAL_START
  | NO_SCREENSHOTS
  | PROBLEM_EXTRACTED
  | SOLUTION_SUCCESS
  | INITIAL_SOLUTION_ERROR
  | API_KEY_OUT_OF_CREDITS
  | API_KEY_INVALID
  | DEBUG_START
  | DEBUG_SUCCESS
  | DEBUG_ERROR
  | RESET_VIEW
  | RESET
deriving DecidableEq, Repr

/-- Payload attached to an emitted event.  `errObj` records the places
where the source sends a raw error object rather than its `.message`
string (`processScreenshots`, line 186). -/
inductive Payload
  | empty
  | problem (p : ProblemInfo)
  | solutions (s : Solutions)
  | debug (d : DebugSolutions)
  | message (m : String)
  | errObj (m : String)
deriving DecidableEq, Repr

/-- One `webContents.send` call: channel name plus payload. -/
structure Event where
  name : EvName
  payload : Payload
deriving DecidableEq, Repr

/-- One invocation of the external Analysis Client. -/
inductive ApiCall
  | extractCall
  | generateCall
  | debugCall
deriving DecidableEq, Repr

/-- The mutable state the pipeline touches: window availability
(`deps.getMainWindow()` non-null / `isDestroyed`), the view, the stored
`ProblemInfo`, the `hasDebugged` flag, the two abort-controller slots
(`currentProcessingAbortController` / `currentExtraProcessingAbortController`
being non-null) and the two screenshot queues of the Screenshot Store. -/
structure PState where
  hasWindow : Bool
  winDestroyed : Bool
  view : View
  problemInfo : Option ProblemInfo
  hasDebugged : Bool
  mainHandle : Bool
  extraHandle : Bool
  screenshotQueue : List String
  extraScreenshotQueue : List String
deriving DecidableEq, Repr

/-- Oracle fixing the outcome of each external operation a run may
perform: loading the queued images from disk (main-run load and extra-run
load), and the three Analysis Client calls.  `Except.error m` is a thrown
error whose `.message` is `m`; `Except.ok none` for generate/debug models a
falsy (`!solutions` / `!debugSolutions`) response. -/
structure Env where
  loadMain : Except String Unit
  loadExtra : Except String Unit
  extractResult : Except String ProblemInfo
  generateResult : Except String (Option Solutions)
  debugResult : Except String (Option DebugSolutions)

/-- JavaScript `String.prototype.includes`: `sub` occurs contiguously in
`hay`. -/
def includesSub (hay sub : String) : Bool :=
  (List.range (hay.toList.length + 1)).any fun i =>
    ((hay.toList.drop i).take sub.toList.length) == sub.toList

/-- Sentinel checked by `error.message?.includes(...)` for the
out-of-credits classification. -/
def oocSentinel : String := "API Key out of credits"

/-- Sentinel checked for the invalid-key classification. -/
def invalidKeySentinel : String :=
  "Please close this window and re-enter a valid Open AI API key."

/-- Sentinel checked only on the main-run error path
(`processScreenshots`, line 161). -/
def keyNotFoundSentinel : String := "OpenAI API key not found"

/-- The fixed replacement message sent when the main-run error message
contains `keyNotFoundSentinel`. -/
def keyNotFoundMessage : String :=
  "OpenAI API key not found in environment variables. Please set the OPEN_AI_API_KEY environment variable."

/-- `INITIAL_START` event (no payload). -/
def startEv : Event := ⟨EvName.INITIAL_START, Payload.empty⟩

/-- `NO_SCREENSHOTS` event (no payload). -/
def noScreensEv : Event := ⟨EvName.NO_SCREENSHOTS, Payload.empty⟩

/-- `API_KEY_OUT_OF_CREDITS` event (no payload). -/
def oocEv : Event := ⟨EvName.API_KEY_OUT_OF_CREDITS, Payload.empty⟩

/-- `API_KEY_INVALID` event (no payload). -/
def invalidEv : Event := ⟨EvName.API_KEY_INVALID, Payload.empty⟩

/-- `DEBUG_START` event (no payload). -/
def debugStartEv : Event := ⟨EvName.DEBUG_START, Payload.empty⟩

/-- `INITIAL_SOLUTION_ERROR` carrying a message string. -/
def iseMsg (m : String) : Event := ⟨EvName.INITIAL_SOLUTION_ERROR, Payload.message m⟩

/-- `INITIAL_SOLUTION_ERROR` carrying a raw error object. -/
def iseObj (m : String) : Event := ⟨EvName.INITIAL_SOLUTION_ERROR, Payload.errObj m⟩

/-- `DEBUG_ERROR` carrying a message string. -/
def debugErrEv (m : String) : Event := ⟨EvName.DEBUG_ERROR, Payload.message m⟩

/-- `reset-view` event of the `trigger-reset` handler. -/
def resetViewEv : Event := ⟨EvName.RESET_VIEW, Payload.empty⟩

/-- `reset` event of the `trigger-reset` handler. -/
def resetEv : Event := ⟨EvName.RESET, Payload.empty⟩

/-- Result of one of the `...Helper` functions: the `{success: true, data}`
/ `{success: false, error}` object they return. -/
inductive HelperResult (α : Type)
  | ok (a : α)
  | fail (msg : String)
deriving DecidableEq, Repr

/-- Output of a helper: its result object, the events it sent and the
Analysis Client calls it performed. -/
structure HelperOut (α : Type) where
  result : HelperResult α
  events : List Event
  calls : List ApiCall
deriving DecidableEq, Repr

/-- The identical `catch` classification of `generateSolutionsHelper`
(lines 289-315) and `processExtraScreenshotsHelper` (lines 341-367): on an
error message containing the out-of-credits sentinel send
`API_KEY_OUT_OF_CREDITS`, else on the invalid-key sentinel send
`API_KEY_INVALID`, else send nothing; each send is guarded by
`if (mainWindow)`. -/
def sentinelEvents (hasWindow : Bool) (m : String) : List Event :=
  if includesSub m oocSentinel then
    (if hasWindow then [oocEv] else [])
  else if includesSub m invalidKeySentinel then
    (if hasWindow then [invalidEv] else [])
  else []

/-- Embeds `ProcessingHelper.generateSolutionsHelper` (lines 274-316).
The `signalAborted` parameter is the `signal : AbortSignal` argument of
the source function; the source never reads it. -/
def generateSolutionsHelper (s : PState) (env : Env) (signalAborted : Bool) :
    HelperOut Solutions :=
  match s.problemInfo with
  | none =>
      { result := HelperResult.fail "No problem info available",
        events := sentinelEvents s.hasWindow "No problem info available",
        calls := [] }
  | some _ =>
      match env.generateResult with
      | Except.error m =>
          { result := HelperResult.fail m,
            events := sentinelEvents s.hasWindow m,
            calls := [ApiCall.generateCall] }
      | Except.ok none =>
          { result := HelperResult.fail "No solutions received",
            events := sentinelEvents s.hasWindow "No solutions received",
            calls := [ApiCall.generateCall] }
      | Except.ok (some sol) =>
          { result := HelperResult.ok sol,
            events := [],
            calls := [ApiCall.generateCall] }

/-- Embeds `ProcessingHelper.processScreenshotsHelper` (lines 73-122).
Returns the state after its writes together with its result object.  On
extraction success the problem info is stored (`deps.setProblemInfo`) and
`PROBLEM_EXTRACTED` sent; then — only with a window — generation runs and
`SOLUTION_SUCCESS` is sent with the solutions payload; a generation
failure re-throws `solutionsResult.error || "Failed to generate solutions"`
into the outer catch, which returns `{success:false, error}`. -/
def processScreenshotsHelper (s : PState) (env : Env) (signalAborted : Bool) :
    PState × HelperOut ProblemInfo :=
  match env.extractResult with
  | Except.error m =>
      (s, { result := HelperResult.fail m, events := [],
            calls := [ApiCall.extractCall] })
  | Except.ok p =>
      if s.hasWindow then
        match generateSolutionsHelper { s with problemInfo := some p } env signalAborted with
        | ⟨HelperResult.ok sol, gev, gcalls⟩ =>
            ({ s with problemInfo := some p },
             { result := HelperResult.ok p,
               events := Event.mk EvName.PROBLEM_EXTRACTED (Payload.problem p) ::
                 (gev ++ [Event.mk EvName.SOLUTION_SUCCESS (Payload.solutions sol)]),
               calls := ApiCall.extractCall :: gcalls })
        | ⟨HelperResult.fail m, gev, gcalls⟩ =>
            ({ s with problemInfo := some p },
             { result := HelperResult.fail
                 (if m = "" then "Failed to generate solutions" else m),
               events := Event.mk EvName.PROBLEM_EXTRACTED (Payload.problem p) :: gev,
               calls := ApiCall.extractCall :: gcalls })
      else
        ({ s with problemInfo := some p },
         { result := HelperResult.ok p, events := [],
           calls := [ApiCall.extractCall] })

/-- Embeds `ProcessingHelper.processExtraScreenshotsHelper` (lines
318-368): requires a stored `ProblemInfo` before calling
`debugSolutionResponses`; a missing one throws locally into the catch. -/
def processExtraScreenshotsHelper (s : PState) (env : Env) (signalAborted : Bool) :
    HelperOut DebugSolutions :=
  match s.problemInfo with
  | none =>
      { result := HelperResult.fail "No problem info available",
        events := sentinelEvents s.hasWindow "No problem info available",
        calls := [] }
  | some _ =>
      match env.debugResult with
      | Except.error m =>
          { result := HelperResult.fail m,
            events := sentinelEvents s.hasWindow m,
            calls := [ApiCall.debugCall] }
      | Except.ok none =>
          { result := HelperResult.fail "No debug solutions received",
            events := sentinelEvents s.hasWindow "No debug solutions received",
            calls := [ApiCall.debugCall] }
      | Except.ok (some d) =>
          { result := HelperResult.ok d, events := [],
            calls := [ApiCall.debugCall] }

/-- Error classification of the main-run failure path
(`processScreenshots`, lines 155-171): out-of-credits sentinel sends
`API_KEY_OUT_OF_CREDITS`; a message containing "OpenAI API key not found"
sends `INITIAL_SOLUTION_ERROR` with a fixed replacement text; anything
else sends `INITIAL_SOLUTION_ERROR` with the message itself. -/
def mainErrorEvents (m : String) : List Event :=
  if includesSub m oocSentinel then [oocEv]
  else if includesSub m keyNotFoundSentinel then [iseMsg keyNotFoundMessage]
  else [iseMsg m]

/-- Output of one whole `processScreenshots` run: final state, emitted
events in order, Analysis Client calls performed, and whether an
`AbortController` was created. -/
structure RunResult where
  state : PState
  events : List Event
  calls : List ApiCall
  handleCreated : Bool
deriving DecidableEq, Repr

/-- Embeds `ProcessingHelper.processScreenshots` (lines 124-272).
`signalAborted` models the abort state the freshly created controller's
signal would have when the helpers run (i.e. whether `cancel()` fired
mid-run); the helpers receive it exactly where the source passes
`signal`. -/
def processScreenshots (s : PState) (env : Env) (signalAborted : Bool) : RunResult :=
  if s.hasWindow then
    if s.view = View.queue then
      if s.screenshotQueue.isEmpty then
        { state := s, events := [startEv, noScreensEv], calls := [],
          handleCreated := false }
      else
        match env.loadMain with
        | Except.error m =>
            { state := { s with view := View.queue, mainHandle := false },
              events := [startEv, iseObj m,
                iseMsg (if m = "" then "Server error. Please try again." else m)],
              calls := [], handleCreated := true }
        | Except.ok _ =>
            match processScreenshotsHelper { s with mainHandle := true } env signalAborted with
            | (s2, ⟨HelperResult.fail m, hev, hcalls⟩) =>
                { state := { s2 with view := View.queue, mainHandle := false },
                  events := startEv :: (hev ++ mainErrorEvents m),
                  calls := hcalls, handleCreated := true }
            | (s2, ⟨HelperResult.ok p, hev, hcalls⟩) =>
                { state := { s2 with view := View.solutions, mainHandle := false },
                  events := startEv :: (hev ++
                    [Event.mk EvName.SOLUTION_SUCCESS (Payload.problem p)]),
                  calls := hcalls, handleCreated := true }
    else
      if s.extraScreenshotQueue.isEmpty then
        { state := s, events := [noScreensEv], calls := [],
          handleCreated := false }
      else
        match env.loadExtra with
        | Except.error m =>
            { state := { s with extraHandle := false },
              events := [debugStartEv, debugErrEv m],
              calls := [], handleCreated := true }
        | Except.ok _ =>
            match processExtraScreenshotsHelper { s with extraHandle := true } env signalAborted with
            | ⟨HelperResult.ok d, hev, hcalls⟩ =>
                { state := { s with hasDebugged := true, extraHandle := false },
                  events := debugStartEv :: (hev ++
                    [Event.mk EvName.DEBUG_SUCCESS (Payload.debug d)]),
                  calls := hcalls, handleCreated := true }
            | ⟨HelperResult.fail m, hev, hcalls⟩ =>
                { state := { s with extraHandle := false },
                  events := debugStartEv :: (hev ++ [debugErrEv m]),
                  calls := hcalls, handleCreated := true }
  else
    { state := s, events := [], calls := [], handleCreated := false }

/-- Embeds `ProcessingHelper.cancelOngoingRequests` (lines 370-396):
aborts and clears whichever controllers are set, resets `hasDebugged` and
`problemInfo`, and sends `NO_SCREENSHOTS` only if a controller was set and
the main window exists and is not destroyed.  Returns the new state and
the emitted events. -/
def cancelOngoingRequests (s : PState) : PState × List Event :=
  if (s.mainHandle || s.extraHandle) && (s.hasWindow && !s.winDestroyed) then
    ({ s with mainHandle := false, extraHandle := false,
              hasDebugged := false, problemInfo := none }, [noScreensEv])
  else
    ({ s with mainHandle := false, extraHandle := false,
              hasDebugged := false, problemInfo := none }, [])

/-- Modelled from the spec: `deps.clearQueues` (defined in `main.ts`,
which is not under `src/`); the spec says reset "clears both queues via
the Screenshot Store". -/
def clearQueues (s : PState) : PState :=
  { s with screenshotQueue := [], extraScreenshotQueue := [] }

/-- Embeds the `trigger-reset` IPC handler of `ipcHandlers.ts`
(`src/unnamed/part_000`, lines 289-313): cancel ongoing requests, clear
both queues, set the view to `queue`, then — if the main window exists and
is not destroyed — send `reset-view` followed by `reset`. -/
def triggerReset (s : PState) : PState × List Event :=
  if s.hasWindow && !s.winDestroyed then
    ({ clearQueues (cancelOngoingRequests s).1 with view := View.queue },
     (cancelOngoingRequests s).2 ++ [resetViewEv, resetEv])
  else
    ({ clearQueues (cancelOngoingRequests s).1 with view := View.queue },
     (cancelOngoingRequests s).2)

/-- Number of events in `evs` on the channel `n`. -/
def countEvName (evs : List Event) (n : EvName) : Nat :=
  (evs.filter (fun e => e.name == n)).length

/-- An event is terminal-error-like: one of the four failure channels. -/
def isErrorEv (e : Event) : Bool :=
  match e.name with
  | EvName.INITIAL_SOLUTION_ERROR => true
  | EvName.API_KEY_OUT_OF_CREDITS => true
  | EvName.API_KEY_INVALID => true
  | EvName.DEBUG_ERROR => true
  | _ => false

/-- Number of error events in `evs`. -/
def errCount (evs : List Event) : Nat := (evs.filter isErrorEv).length

/-! ### Concrete sample inputs used by closed theorems and witnesses -/

/-- A sample extraction payload. -/
def p0 : ProblemInfo := ⟨"sum two numbers"⟩

/-- A sample solutions payload. -/
def sol0 : Solutions := ⟨"def add(a, b): return a + b"⟩

/-- A sample debug-solutions payload. -/
def dbg0 : DebugSolutions := ⟨"fixed code"⟩

/-- Environment in which every external operation succeeds. -/
def okEnv : Env :=
  { loadMain := Except.ok (), loadExtra := Except.ok (),
    extractResult := Except.ok p0,
    generateResult := Except.ok (some sol0),
    debugResult := Except.ok (some dbg0) }

/-- A state with a window, view `queue`, one queued screenshot, and no
stored problem info: ready for a main run. -/
def mainReadyState : PState :=
  { hasWindow := true, winDestroyed := false, view := View.queue,
    problemInfo := none, hasDebugged := false,
    mainHandle := false, extraHandle := false,
    screenshotQueue := ["img_a.png"], extraScreenshotQueue := [] }

/-! ### Claim theorems -/

/-- Claim C10: if `getMainWindow` returns null, `processScreenshots`
returns immediately as a complete no-op — no event, no Analysis Client
call, no abort controller created, and the state (view, problem info,
`hasDebugged`, both queues) unchanged. -/
theorem c10_no_window_noop (wd : Bool) (v : View) (pi : Option ProblemInfo)
    (hd mh eh : Bool) (q eq : List String) (env : Env) (b : Bool) :
    processScreenshots ⟨false, wd, v, pi, hd, mh, eh, q, eq⟩ env b =
      ⟨⟨false, wd, v, pi, hd, mh, eh, q, eq⟩, [], [], false⟩ := rfl

/-- Claim C1 (evaluation at the failing input): on a non-empty main queue
with extraction and generation both succeeding, the run emits
`SOLUTION_SUCCESS` twice — first with the Solutions payload from inside
`processScreenshotsHelper`, then again from `processScreenshots` with the
ProblemInfo payload (`result.data`) — not exactly once as the spec
states; the final view is `solutions`. -/
theorem c1_duplicate_solution_success :
    (processScreenshots mainReadyState okEnv false).events =
      [startEv, ⟨EvName.PROBLEM_EXTRACTED, Payload.problem p0⟩,
       ⟨EvName.SOLUTION_SUCCESS, Payload.solutions sol0⟩,
       ⟨EvName.SOLUTION_SUCCESS, Payload.problem p0⟩] ∧
    countEvName (processScreenshots mainReadyState okEnv false).events
      EvName.SOLUTION_SUCCESS = 2 ∧
    (processScreenshots mainReadyState okEnv false).state.view = View.solutions := by
  decide

/-- Claim C5 (evaluation refuting the claim): the abort signal threaded
into `processScreenshotsHelper`, `generateSolutionsHelper` and
`processExtraScreenshotsHelper` is never observed — each helper's output
is independent of the signal's abort state — and a main run whose signal
is already aborted still performs both Analysis Client calls and
completes normally. -/
theorem c5_signal_never_observed :
    (∀ s env b₁ b₂,
        processScreenshotsHelper s env b₁ = processScreenshotsHelper s env b₂) ∧
    (∀ s env b₁ b₂,
        generateSolutionsHelper s env b₁ = generateSolutionsHelper s env b₂) ∧
    (∀ s env b₁ b₂,
        processExtraScreenshotsHelper s env b₁ = processExtraScreenshotsHelper s env b₂) ∧
    ((processScreenshots mainReadyState okEnv true).calls =
        [ApiCall.extractCall, ApiCall.generateCall] ∧
     (processScreenshots mainReadyState okEnv true).state.view = View.solutions) := by
  exact ⟨fun _ _ _ _ => rfl, fun _ _ _ _ => rfl, fun _ _ _ _ => rfl, by decide⟩

/-- Claim C3 (counterexample): an extra/debug run started on an empty
extra queue emits only `[NO_SCREENSHOTS]` — not the claimed
`[DEBUG_START, NO_SCREENSHOTS]` — because the source checks emptiness
before sending `DEBUG_START`. -/
theorem c3_counterexample :
    (processScreenshots
        ⟨true, false, View.solutions, some p0, false, false, false, ["img_a.png"], []⟩
        okEnv false).events = [noScreensEv] ∧
    (processScreenshots
        ⟨true, false, View.solutions, some p0, false, false, false, ["img_a.png"], []⟩
        okEnv false).events ≠ [debugStartEv, noScreensEv] := by
  decide

/-- Claim C3 (amended): with a window available, a main-kind run on an
empty main queue emits exactly `[INITIAL_START, NO_SCREENSHOTS]`, and an
extra-kind run on an empty extra queue emits exactly `[NO_SCREENSHOTS]`
(the start event of the extra kind is only sent after the emptiness
check); in both cases the run performs no Analysis Client call, creates
no abort controller, and leaves the state entirely unchanged. -/
theorem c3_amended (wd : Bool) (pi : Option ProblemInfo) (hd mh eh : Bool)
    (q eq : List String) (env : Env) (b : Bool) :
    processScreenshots ⟨true, wd, View.queue, pi, hd, mh, eh, [], eq⟩ env b =
      ⟨⟨true, wd, View.queue, pi, hd, mh, eh, [], eq⟩,
       [startEv, noScreensEv], [], false⟩ ∧
    processScreenshots ⟨true, wd, View.solutions, pi, hd, mh, eh, q, []⟩ env b =
      ⟨⟨true, wd, View.solutions, pi, hd, mh, eh, q, []⟩,
       [noScreensEv], [], false⟩ :=
  ⟨rfl, rfl⟩

/-- Claim C9: an extra/debug run started with a non-empty extra queue
while no problem info is stored emits `DEBUG_ERROR` exactly once and
never invokes the Analysis Client (in particular,
`generate-debug-solutions` is never called). -/
theorem c9_debug_without_probleminfo (wd hd mh eh b : Bool)
    (q : List String) (x : String) (eq : List String) (env : Env) :
    countEvName (processScreenshots
        ⟨true, wd, View.solutions, none, hd, mh, eh, q, x :: eq⟩ env b).events
      EvName.DEBUG_ERROR = 1 ∧
    (processScreenshots
        ⟨true, wd, View.solutions, none, hd, mh, eh, q, x :: eq⟩ env b).calls = [] := by
  obtain ⟨lm, le, ex, ge, de⟩ := env
  cases le with
  | error m =>
      simp [processScreenshots, countEvName, debugStartEv, debugErrEv]
  | ok u =>
      cases u
      have h1 : sentinelEvents true "No problem info available" = [] := by decide
      simp [processScreenshots, processExtraScreenshotsHelper, h1,
        countEvName, debugStartEv, debugErrEv]

/-- A state with an active main handle but no main window. -/
def cancelNoWindowState : PState :=
  { hasWindow := false, winDestroyed := false, view := View.queue,
    problemInfo := some p0, hasDebugged := true,
    mainHandle := true, extraHandle := false,
    screenshotQueue := [], extraScreenshotQueue := [] }

/-- Claim C6 (counterexample): with the main processing handle active but
no main window available, `cancelOngoingRequests` emits nothing — so
"emits NO_SCREENSHOTS if and only if at least one handle was active" is
false in the if direction. -/
theorem c6_counterexample :
    (cancelNoWindowState.mainHandle || cancelNoWindowState.extraHandle) = true ∧
    (cancelOngoingRequests cancelNoWindowState).2 = [] := by
  decide

/-- Claim C6 (amended): for every prior state, `cancelOngoingRequests`
leaves `problemInfo = none` and `hasDebugged = false`, emits
`NO_SCREENSHOTS` if and only if at least one handle was active *and* the
main window exists and is not destroyed, and an immediate second call is
a no-op: it emits nothing and returns the same state. -/
theorem c6_amended (s : PState) :
    (cancelOngoingRequests s).1.problemInfo = none ∧
    (cancelOngoingRequests s).1.hasDebugged = false ∧
    (cancelOngoingRequests s).2 =
      (if (s.mainHandle || s.extraHandle) && (s.hasWindow && !s.winDestroyed)
       then [noScreensEv] else []) ∧
    cancelOngoingRequests (cancelOngoingRequests s).1 =
      ((cancelOngoingRequests s).1, []) := by
  obtain ⟨hw, wd, v, pi, hd, mh, eh, q, eq⟩ := s
  by_cases hc : ((mh || eh) && (hw && !wd)) = true
  · simp [cancelOngoingRequests, hc]
  · simp [cancelOngoingRequests, hc]

/-- The pipeline invariant of the spec: `ProblemInfo` is non-null
whenever `View` is `solutions`. -/
def pipelineInv (s : PState) : Prop :=
  s.view = View.solutions → s.problemInfo ≠ none

/-- When `processScreenshotsHelper` returns success with payload `p`, the
state it returns has `problemInfo = some p` (the helper stored the
extracted info before anything else could fail). -/
lemma processScreenshotsHelper_ok_problemInfo (s : PState) (env : Env) (b : Bool)
    (s2 : PState) (h : HelperOut ProblemInfo) (p : ProblemInfo)
    (heq : processScreenshotsHelper s env b = (s2, h))
    (hr : h.result = HelperResult.ok p) : s2.problemInfo = some p := by
  unfold processScreenshotsHelper at heq
  cases hex : env.extractResult with
  | error m =>
      simp only [hex] at heq
      injection heq with h1 h2
      subst h1; subst h2
      simp at hr
  | ok p2 =>
      simp only [hex] at heq
      split at heq
      · split at heq
        · injection heq with h1 h2
          subst h1; subst h2
          simp at hr
          subst hr
          simp
        · injection heq with h1 h2
          subst h1; subst h2
          simp at hr
      · injection heq with h1 h2
        subst h1; subst h2
        simp at hr
        subst hr
        simp

/-- Claim C7 (counterexample): from the initial-shape state, run a
successful main run (View becomes `solutions`, problem info stored) and
then `cancelOngoingRequests`: the result has `View = solutions` with
`problemInfo = none`, violating the claimed invariant. -/
theorem c7_counterexample :
    (cancelOngoingRequests (processScreenshots mainReadyState okEnv false).state).1.view
      = View.solutions ∧
    (cancelOngoingRequests (processScreenshots mainReadyState okEnv false).state).1.problemInfo
      = none := by
  decide

/-- Claim C7 (amended): the invariant "ProblemInfo is non-null whenever
View is solutions" is preserved by every run of either kind and holds
after every reset, but `cancelOngoingRequests` does not preserve it (it
clears ProblemInfo without resetting the view). -/
theorem c7_amended :
    (∀ (s : PState) (env : Env) (b : Bool),
        pipelineInv s → pipelineInv (processScreenshots s env b).state) ∧
    (∀ s : PState, pipelineInv (triggerReset s).1) := by
  constructor
  · intro s env b hinv
    unfold processScreenshots
    split
    · split
      · split
        · exact hinv
        · split
          · intro hv; simp at hv
          · rcases hps : processScreenshotsHelper { s with mainHandle := true } env b
              with ⟨s2, res, hev, hcalls⟩
            cases res with
            | fail m => intro hv; simp at hv
            | ok p =>
                intro hv
                have hpi := processScreenshotsHelper_ok_problemInfo
                  { s with mainHandle := true } env b s2 ⟨HelperResult.ok p, hev, hcalls⟩ p hps rfl
                simp [hpi]
      · split
        · exact hinv
        · split
          · exact hinv
          · rcases hpe : processExtraScreenshotsHelper { s with extraHandle := true } env b
              with ⟨res, hev, hcalls⟩
            cases res with
            | fail m => exact hinv
            | ok d => exact hinv
    · exact hinv
  · intro s
    unfold triggerReset
    split
    · intro hv; simp at hv
    · intro hv; simp at hv

/-- Claim C7 (witness for the amended theorem): the invariant transfer
applied at a concrete state and environment. -/
theorem c7_amended_witness :
    pipelineInv (processScreenshots mainReadyState okEnv false).state ∧
    pipelineInv (triggerReset mainReadyState).1 :=
  ⟨c7_amended.1 mainReadyState okEnv false (fun hv => absurd hv (by decide)),
   c7_amended.2 mainReadyState⟩

/-- A state with no main window but populated queues and an active
handle, used to evaluate `triggerReset`. -/
def resetNoWindowState : PState :=
  { hasWindow := false, winDestroyed := false, view := View.solutions,
    problemInfo := some p0, hasDebugged := true,
    mainHandle := true, extraHandle := true,
    screenshotQueue := ["a.png"], extraScreenshotQueue := ["b.png"] }

/-- Claim C8 (counterexample): with no main window available, the reset
command emits no events at all — in particular no `reset-view` event — so
"every invocation ... emits the reset-view event strictly before the
reset event" fails as stated. -/
theorem c8_counterexample :
    (triggerReset resetNoWindowState).2 = [] ∧
    countEvName (triggerReset resetNoWindowState).2 EvName.RESET_VIEW = 0 := by
  decide

/-- Claim C8 (amended): every invocation of the reset command first
cancels ongoing requests and always leaves both queues empty with
`View = queue`; when the main window exists and is not destroyed, its
event output is the cancellation's events followed immediately by
`reset-view` and then `reset` — adjacent and in that order. -/
theorem c8_amended (s : PState) :
    ((triggerReset s).1.screenshotQueue = [] ∧
     (triggerReset s).1.extraScreenshotQueue = [] ∧
     (triggerReset s).1.view = View.queue) ∧
    ((s.hasWindow && !s.winDestroyed) = true →
      (triggerReset s).2 = (cancelOngoingRequests s).2 ++ [resetViewEv, resetEv]) := by
  constructor
  · unfold triggerReset
    split
    · exact ⟨rfl, rfl, rfl⟩
    · exact ⟨rfl, rfl, rfl⟩
  · intro hwnd
    unfold triggerReset
    simp [hwnd]

/-- A state with a window, used as the witness input for the amended
reset claim. -/
def resetReadyState : PState :=
  { hasWindow := true, winDestroyed := false, view := View.solutions,
    problemInfo := some p0, hasDebugged := true,
    mainHandle := true, extraHandle := false,
    screenshotQueue := ["a.png"], extraScreenshotQueue := ["b.png"] }

/-- Claim C8 (witness for the amended theorem): the reset behavior
instantiated at a concrete state with an available window. -/
theorem c8_amended_witness :
    (triggerReset resetReadyState).1.view = View.queue ∧
    (triggerReset resetReadyState).2 =
      (cancelOngoingRequests resetReadyState).2 ++ [resetViewEv, resetEv] :=
  ⟨(c8_amended resetReadyState).1.2.2,
   (c8_amended resetReadyState).2 (by decide)⟩

/-- A message containing a non-empty substring is itself non-empty. -/
lemma includesSub_ne_empty (m sub : String) (hsub : sub.toList ≠ [])
    (h : includesSub m sub = true) : ¬(m = "") := by
  intro hm
  subst hm
  simp [includesSub] at h
  exact hsub h

/-- Claim C2 (counterexample): a main run whose extraction fails with a
message containing the invalid-key sentinel emits `API_KEY_INVALID` zero
times, not exactly once — the main-run error path never checks that
sentinel; the run emits the generic error event instead. -/
theorem c2_counterexample :
    includesSub invalidKeySentinel invalidKeySentinel = true ∧
    countEvName (processScreenshots mainReadyState
        { okEnv with extractResult := Except.error invalidKeySentinel } false).events
      EvName.API_KEY_INVALID = 0 ∧
    (processScreenshots mainReadyState
        { okEnv with extractResult := Except.error invalidKeySentinel } false).events =
      [startEv, iseMsg invalidKeySentinel] := by
  refine ⟨by decide, ?_, ?_⟩ <;> decide

/-- Claim C2 (amended): the sentinel classification actually implemented.
With a window available and a non-empty relevant queue:
out-of-credits messages emit `API_KEY_OUT_OF_CREDITS` once when extraction
of a main run fails (part 1) or when an extra run fails (part 3, followed
by `DEBUG_ERROR`), and twice when generation of a main run fails
(part 2); invalid-key messages emit `API_KEY_INVALID` once for main-run
generation failures (part 4, followed by the generic event) and extra-run
failures (part 5, followed by `DEBUG_ERROR`), and zero times for main-run
extraction failures (part 6, generic event only); messages with neither
sentinel emit only the run's generic event carrying the exact message
(parts 7-9), except that a main-run message containing "OpenAI API key
not found" is replaced by a fixed text (part 10). -/
theorem c2_amended :
    (∀ (wd : Bool) (pi : Option ProblemInfo) (hd mh eh : Bool) (x : String)
        (q eq : List String) (le : Except String Unit)
        (ge : Except String (Option Solutions)) (de : Except String (Option DebugSolutions))
        (b : Bool) (m : String), includesSub m oocSentinel = true →
      (processScreenshots ⟨true, wd, View.queue, pi, hd, mh, eh, x :: q, eq⟩
          ⟨Except.ok (), le, Except.error m, ge, de⟩ b).events =
        [startEv, oocEv]) ∧
    (∀ (wd : Bool) (pi : Option ProblemInfo) (hd mh eh : Bool) (x : String)
        (q eq : List String) (le : Except String Unit) (p : ProblemInfo)
        (de : Except String (Option DebugSolutions)) (b : Bool) (m : String),
        includesSub m oocSentinel = true →
      (processScreenshots ⟨true, wd, View.queue, pi, hd, mh, eh, x :: q, eq⟩
          ⟨Except.ok (), le, Except.ok p, Except.error m, de⟩ b).events =
        [startEv, ⟨EvName.PROBLEM_EXTRACTED, Payload.problem p⟩, oocEv, oocEv]) ∧
    (∀ (wd : Bool) (hd mh eh : Bool) (x : String) (q eq : List String)
        (lm : Except String Unit) (ex : Except String ProblemInfo)
        (ge : Except String (Option Solutions)) (p : ProblemInfo) (b : Bool) (m : String),
        includesSub m oocSentinel = true →
      (processScreenshots ⟨true, wd, View.solutions, some p, hd, mh, eh, q, x :: eq⟩
          ⟨lm, Except.ok (), ex, ge, Except.error m⟩ b).events =
        [debugStartEv, oocEv, debugErrEv m]) ∧
    (∀ (wd : Bool) (pi : Option ProblemInfo) (hd mh eh : Bool) (x : String)
        (q eq : List String) (le : Except String Unit) (p : ProblemInfo)
        (de : Except String (Option DebugSolutions)) (b : Bool) (m : String),
        includesSub m oocSentinel = false →
        includesSub m invalidKeySentinel = true →
        includesSub m keyNotFoundSentinel = false →
      (processScreenshots ⟨true, wd, View.queue, pi, hd, mh, eh, x :: q, eq⟩
          ⟨Except.ok (), le, Except.ok p, Except.error m, de⟩ b).events =
        [startEv, ⟨EvName.PROBLEM_EXTRACTED, Payload.problem p⟩, invalidEv, iseMsg m]) ∧
    (∀ (wd : Bool) (hd mh eh : Bool) (x : String) (q eq : List String)
        (lm : Except String Unit) (ex : Except String ProblemInfo)
        (ge : Except String (Option Solutions)) (p : ProblemInfo) (b : Bool) (m : String),
        includesSub m oocSentinel = false →
        includesSub m invalidKeySentinel = true →
      (processScreenshots ⟨true, wd, View.solutions, some p, hd, mh, eh, q, x :: eq⟩
          ⟨lm, Except.ok (), ex, ge, Except.error m⟩ b).events =
        [debugStartEv, invalidEv, debugErrEv m]) ∧
    (∀ (wd : Bool) (pi : Option ProblemInfo) (hd mh eh : Bool) (x : String)
        (q eq : List String) (le : Except String Unit)
        (ge : Except String (Option Solutions)) (de : Except String (Option DebugSolutions))
        (b : Bool) (m : String),
        includesSub m oocSentinel = false →
        includesSub m keyNotFoundSentinel = false →
      (processScreenshots ⟨true, wd, View.queue, pi, hd, mh, eh, x :: q, eq⟩
          ⟨Except.ok (), le, Except.error m, ge, de⟩ b).events =
        [startEv, iseMsg m]) ∧
    (∀ (wd : Bool) (pi : Option ProblemInfo) (hd mh eh : Bool) (x : String)
        (q eq : List String) (le : Except String Unit) (p : ProblemInfo)
        (de : Except String (Option DebugSolutions)) (b : Bool) (m : String),
        includesSub m oocSentinel = false →
        includesSub m invalidKeySentinel = false →
        includesSub m keyNotFoundSentinel = false →
        ¬(m = "") →
      (processScreenshots ⟨true, wd, View.queue, pi, hd, mh, eh, x :: q, eq⟩
          ⟨Except.ok (), le, Except.ok p, Except.error m, de⟩ b).events =
        [startEv, ⟨EvName.PROBLEM_EXTRACTED, Payload.problem p⟩, iseMsg m]) ∧
    (∀ (wd : Bool) (hd mh eh : Bool) (x : String) (q eq : List String)
        (lm : Except String Unit) (ex : Except String ProblemInfo)
        (ge : Except String (Option Solutions)) (p : ProblemInfo) (b : Bool) (m : String),
        includesSub m oocSentinel = false →
        includesSub m invalidKeySentinel = false →
      (processScreenshots ⟨true, wd, View.solutions, some p, hd, mh, eh, q, x :: eq⟩
          ⟨lm, Except.ok (), ex, ge, Except.error m⟩ b).events =
        [debugStartEv, debugErrEv m]) ∧
    (∀ (wd : Bool) (pi : Option ProblemInfo) (hd mh eh : Bool) (x : String)
        (q eq : List String) (le : Except String Unit)
        (ge : Except String (Option Solutions)) (de : Except String (Option DebugSolutions))
        (b : Bool) (m : String),
        includesSub m oocSentinel = false →
        includesSub m keyNotFoundSentinel = true →
      (processScreenshots ⟨true, wd, View.queue, pi, hd, mh, eh, x :: q, eq⟩
          ⟨Except.ok (), le, Except.error m, ge, de⟩ b).events =
        [startEv, iseMsg keyNotFoundMessage]) := by
  have hooc : oocSentinel.toList ≠ [] := by decide
  have hinv : invalidKeySentinel.toList ≠ [] := by decide
  refine ⟨?_, ?_, ?_, ?_, ?_, ?_, ?_, ?_, ?_⟩
  · intro wd pi hd mh eh x q eq le ge de b m h1
    simp [processScreenshots, processScreenshotsHelper, mainErrorEvents, h1]
  · intro wd pi hd mh eh x q eq le p de b m h1
    have hne := includesSub_ne_empty m oocSentinel hooc h1
    simp [processScreenshots, processScreenshotsHelper, generateSolutionsHelper,
      sentinelEvents, mainErrorEvents, h1, hne]
  · intro wd hd mh eh x q eq lm ex ge p b m h1
    simp [processScreenshots, processExtraScreenshotsHelper, sentinelEvents, h1]
  · intro wd pi hd mh eh x q eq le p de b m h1 h2 h3
    have hne := includesSub_ne_empty m invalidKeySentinel hinv h2
    simp [processScreenshots, processScreenshotsHelper, generateSolutionsHelper,
      sentinelEvents, mainErrorEvents, h1, h2, h3, hne]
  · intro wd hd mh eh x q eq lm ex ge p b m h1 h2
    simp [processScreenshots, processExtraScreenshotsHelper, sentinelEvents, h1, h2]
  · intro wd pi hd mh eh x q eq le ge de b m h1 h3
    simp [processScreenshots, processScreenshotsHelper, mainErrorEvents, h1, h3]
  · intro wd pi hd mh eh x q eq le p de b m h1 h2 h3 hne
    simp [processScreenshots, processScreenshotsHelper, generateSolutionsHelper,
      sentinelEvents, mainErrorEvents, h1, h2, h3, hne]
  · intro wd hd mh eh x q eq lm ex ge p b m h1 h2
    simp [processScreenshots, processExtraScreenshotsHelper, sentinelEvents, h1, h2]
  · intro wd pi hd mh eh x q eq le ge de b m h1 h2
    simp [processScreenshots, processScreenshotsHelper, mainErrorEvents, h1, h2]

/-- Claim C2 (witness for the amended theorem): the classification parts
instantiated at concrete messages. -/
theorem c2_amended_witness :
    (processScreenshots ⟨true, false, View.queue, none, false, false, false, ["a"], []⟩
        ⟨Except.ok (), Except.ok (), Except.error oocSentinel,
         Except.ok (some sol0), Except.ok (some dbg0)⟩ false).events =
      [startEv, oocEv] ∧
    (processScreenshots ⟨true, false, View.queue, none, false, false, false, ["a"], []⟩
        ⟨Except.ok (), Except.ok (), Except.ok p0,
         Except.error oocSentinel, Except.ok (some dbg0)⟩ false).events =
      [startEv, ⟨EvName.PROBLEM_EXTRACTED, Payload.problem p0⟩, oocEv, oocEv] ∧
    (processScreenshots ⟨true, false, View.queue, none, false, false, false, ["a"], []⟩
        ⟨Except.ok (), Except.ok (), Except.ok p0,
         Except.error invalidKeySentinel, Except.ok (some dbg0)⟩ false).events =
      [startEv, ⟨EvName.PROBLEM_EXTRACTED, Payload.problem p0⟩, invalidEv,
       iseMsg invalidKeySentinel] ∧
    (processScreenshots ⟨true, false, View.solutions, some p0, false, false, false, [], ["b"]⟩
        ⟨Except.ok (), Except.ok (), Except.ok p0,
         Except.ok (some sol0), Except.error "network down"⟩ false).events =
      [debugStartEv, debugErrEv "network down"] :=
  ⟨c2_amended.1 false none false false false "a" [] [] (Except.ok ())
      (Except.ok (some sol0)) (Except.ok (some dbg0)) false oocSentinel (by decide),
   c2_amended.2.1 false none false false false "a" [] [] (Except.ok ()) p0
      (Except.ok (some dbg0)) false oocSentinel (by decide),
   c2_amended.2.2.2.1 false none false false false "a" [] [] (Except.ok ()) p0
      (Except.ok (some dbg0)) false invalidKeySentinel (by decide) (by decide) (by decide),
   c2_amended.2.2.2.2.2.2.2.1 false false false false "b" [] []
      (Except.ok ()) (Except.ok p0) (Except.ok (some sol0)) p0 false "network down"
      (by decide) (by decide)⟩

/-- A main run fails when image loading, extraction or generation fails
(including a falsy generation response). -/
def mainRunFails (env : Env) : Prop :=
  (∃ m, env.loadMain = Except.error m) ∨
  (∃ m, env.extractResult = Except.error m) ∨
  (∃ m, env.generateResult = Except.error m) ∨
  env.generateResult = Except.ok none

/-- An extra run fails when image loading fails, no problem info is
stored, or the debug call fails (including a falsy response). -/
def extraRunFails (pi : Option ProblemInfo) (env : Env) : Prop :=
  (∃ m, env.loadExtra = Except.error m) ∨
  pi = none ∨
  (∃ m, env.debugResult = Except.error m) ∨
  env.debugResult = Except.ok none

/-- A list containing an error event has a positive error count. -/
lemma one_le_errCount_of_mem {evs : List Event} (e : Event)
    (he : e ∈ evs) (hee : isErrorEv e = true) : 1 ≤ errCount evs :=
  List.length_pos_of_mem (List.mem_filter.mpr ⟨he, hee⟩)

/-- `mainErrorEvents` always contains an error event. -/
lemma mainErrorEvents_has_error (m : String) :
    ∃ e ∈ mainErrorEvents m, isErrorEv e = true := by
  unfold mainErrorEvents
  split
  · exact ⟨oocEv, by simp, rfl⟩
  · split
    · exact ⟨iseMsg keyNotFoundMessage, by simp, rfl⟩
    · exact ⟨iseMsg m, by simp, rfl⟩

/-- The sentinel classification never emits on the `DEBUG_ERROR`
channel. -/
lemma sentinel_no_debug_error (w : Bool) (m : String) :
    countEvName (sentinelEvents w m) EvName.DEBUG_ERROR = 0 := by
  unfold sentinelEvents
  split
  · split <;> rfl
  · split
    · split <;> rfl
    · rfl

/-- The extra-run failure event list carries exactly one `DEBUG_ERROR`. -/
lemma countEvName_debug (w : Bool) (m m' : String) :
    countEvName (debugStartEv :: (sentinelEvents w m ++ [debugErrEv m']))
      EvName.DEBUG_ERROR = 1 := by
  have h := sentinel_no_debug_error w m
  unfold countEvName at h ⊢
  simp [List.filter_cons, List.filter_append, debugStartEv, debugErrEv, h]

/-- Claim C4 (counterexample): a failing extra/debug run does not set the
view back to `queue` — it stays `solutions` — so "sets View to queue" on
every failure path is false. -/
theorem c4_counterexample :
    (processScreenshots
        ⟨true, false, View.solutions, some p0, false, false, false, [], ["b.png"]⟩
        { okEnv with debugResult := Except.error "boom" } false).state.view
      ≠ View.queue ∧
    (processScreenshots
        ⟨true, false, View.solutions, some p0, false, false, false, [], ["b.png"]⟩
        { okEnv with debugResult := Except.error "boom" } false).events =
      [debugStartEv, debugErrEv "boom"] := by
  decide

/-- Claim C4 (amended): every failing run of either kind terminates with
its failure handled inside the run (the run function is total and emits
terminal error events); a failing main run always sets View to `queue`
and emits at least one error event (some paths emit two), while a failing
extra run emits `DEBUG_ERROR` exactly once and leaves View at
`solutions` rather than resetting it to `queue`. -/
theorem c4_amended :
    (∀ (wd : Bool) (pi : Option ProblemInfo) (hd mh eh : Bool) (x : String)
        (q eq : List String) (env : Env) (b : Bool), mainRunFails env →
      (processScreenshots ⟨true, wd, View.queue, pi, hd, mh, eh, x :: q, eq⟩ env b).state.view
          = View.queue ∧
      1 ≤ errCount (processScreenshots ⟨true, wd, View.queue, pi, hd, mh, eh, x :: q, eq⟩
            env b).events) ∧
    (∀ (wd : Bool) (pi : Option ProblemInfo) (hd mh eh : Bool) (x : String)
        (q eq : List String) (env : Env) (b : Bool), extraRunFails pi env →
      (processScreenshots ⟨true, wd, View.solutions, pi, hd, mh, eh, q, x :: eq⟩ env b).state.view
          = View.solutions ∧
      countEvName (processScreenshots ⟨true, wd, View.solutions, pi, hd, mh, eh, q, x :: eq⟩
            env b).events EvName.DEBUG_ERROR = 1) := by
  constructor
  · intro wd pi hd mh eh x q eq env b hfail
    obtain ⟨lm, le, ex, ge, de⟩ := env
    cases lm with
    | error m0 =>
        refine ⟨rfl, ?_⟩
        refine one_le_errCount_of_mem (iseObj m0) ?_ rfl
        simp [processScreenshots]
    | ok u =>
        cases u
        cases ex with
        | error m1 =>
            refine ⟨rfl, ?_⟩
            obtain ⟨e, hm, he⟩ := mainErrorEvents_has_error m1
            refine one_le_errCount_of_mem e ?_ he
            simp only [processScreenshots, processScreenshotsHelper]
            simp [hm]
        | ok p =>
            cases ge with
            | error m2 =>
                refine ⟨rfl, ?_⟩
                obtain ⟨e, hm, he⟩ := mainErrorEvents_has_error
                  (if m2 = "" then "Failed to generate solutions" else m2)
                refine one_le_errCount_of_mem e ?_ he
                simp only [processScreenshots, processScreenshotsHelper,
                  generateSolutionsHelper]
                simp [hm]
            | ok osol =>
                cases osol with
                | none =>
                    refine ⟨rfl, ?_⟩
                    obtain ⟨e, hm, he⟩ := mainErrorEvents_has_error "No solutions received"
                    refine one_le_errCount_of_mem e ?_ he
                    simp only [processScreenshots, processScreenshotsHelper,
                      generateSolutionsHelper]
                    simp [hm]
                | some sol =>
                    rcases hfail with ⟨m3, hm3⟩ | ⟨m3, hm3⟩ | ⟨m3, hm3⟩ | hm3 <;>
                      simp at hm3
  · intro wd pi hd mh eh x q eq env b hfail
    obtain ⟨lm, le, ex, ge, de⟩ := env
    cases le with
    | error m0 => exact ⟨rfl, rfl⟩
    | ok u =>
        cases u
        cases pi with
        | none => exact ⟨rfl, rfl⟩
        | some p =>
            cases de with
            | error m2 =>
                refine ⟨rfl, ?_⟩
                have h := countEvName_debug true m2 m2
                simp only [processScreenshots, processExtraScreenshotsHelper]
                exact h
            | ok od =>
                cases od with
                | none => exact ⟨rfl, rfl⟩
                | some d =>
                    rcases hfail with ⟨m3, hm3⟩ | hm3 | ⟨m3, hm3⟩ | hm3 <;>
                      simp at hm3

/-- Claim C4 (witness for the amended theorem): the failure behavior
instantiated at a concrete failing extraction (main run) and a concrete
failing debug call (extra run). -/
theorem c4_amended_witness :
    ((processScreenshots ⟨true, false, View.queue, none, false, false, false, ["a"], []⟩
        ⟨Except.ok (), Except.ok (), Except.error "server blew up",
         Except.ok (some sol0), Except.ok (some dbg0)⟩ false).state.view = View.queue ∧
     1 ≤ errCount (processScreenshots ⟨true, false, View.queue, none, false, false, false, ["a"], []⟩
        ⟨Except.ok (), Except.ok (), Except.error "server blew up",
         Except.ok (some sol0), Except.ok (some dbg0)⟩ false).events) ∧
    ((processScreenshots ⟨true, false, View.solutions, some p0, false, false, false, [], ["b"]⟩
        ⟨Except.ok (), Except.ok (), Except.ok p0,
         Except.ok (some sol0), Except.error "boom2"⟩ false).state.view = View.solutions ∧
     countEvName (processScreenshots ⟨true, false, View.solutions, some p0, false, false, false, [], ["b"]⟩
        ⟨Except.ok (), Except.ok (), Except.ok p0,
         Except.ok (some sol0), Except.error "boom2"⟩ false).events EvName.DEBUG_ERROR = 1) :=
  ⟨c4_amended.1 false none false false false "a" [] []
      ⟨Except.ok (), Except.ok (), Except.error "server blew up",
       Except.ok (some sol0), Except.ok (some dbg0)⟩ false
      (Or.inr (Or.inl ⟨"server blew up", rfl⟩)),
   c4_amended.2 false (some p0) false false false "b" [] []
      ⟨Except.ok (), Except.ok (), Except.ok p0,
       Except.ok (some sol0), Except.error "boom2"⟩ false
      (Or.inr (Or.inr (Or.inl ⟨"boom2", rfl⟩)))⟩

end InterviewCoder
